import Mathlib

/-!
Verification development for the MongoDB-backed sales-management
application (src/app.py).  The data-store gateway is modelled as an
explicit `Store` record holding the four logical collections as
association lists keyed by `ObjectId`; each repository / workflow
function of the source is translated into a pure Lean function over
`Store`.  Fallible operations return `Except AppError`.  The traced
variants additionally return the list of collection accesses (reads and
writes) that reached the store before the function returned or raised,
mirroring the order in which the Python code evaluates `ObjectId`
conversions and issues collection calls.  Python floats are modelled as
exact rationals; machine timestamps as `Nat`.
-/

/-- Errors raised by the modelled functions: `invalidId` is
`bson.errors.InvalidId` from `ObjectId(...)` on a malformed id string,
`invalidReference` is the `ValueError` raised by `insert_sale` when the
product or customer lookup fails, `invalidInput` is the `ValueError`
raised by `int(...)` / `float(...)` on a non-numeric string, and
`duplicateUsername` is the `ValueError` raised by `create_user`. -/
inductive AppError where
  | invalidId
  | invalidReference
  | invalidInput
  | duplicateUsername
deriving DecidableEq, Repr

/-- A BSON object id, identified with its 24-character lowercase/uppercase
hex string representation at the application boundary. -/
structure ObjectId where
  hex : String
deriving DecidableEq, Repr

/-- Hexadecimal digit test, as accepted by `bson.objectid.ObjectId`. -/
def isHexDigit (c : Char) : Bool :=
  c.isDigit || (97 ≤ c.toNat && c.toNat ≤ 102) || (65 ≤ c.toNat && c.toNat ≤ 70)

/-- Validity of an id string: `ObjectId(s)` accepts exactly the
24-character hex strings and raises `InvalidId` otherwise. -/
def isValidObjectIdString (s : String) : Bool :=
  s.length = 24 && s.data.all isHexDigit

/-- The `ObjectId(s)` constructor: parses a string, raising `InvalidId`
(modelled as `AppError.invalidId`) on malformed input. -/
def ObjectId.ofString (s : String) : Except AppError ObjectId :=
  if isValidObjectIdString s then Except.ok ⟨s⟩ else Except.error AppError.invalidId

/-- Generated object id for the n-th insertion, modelling the fresh ids
the store assigns to inserted documents. -/
def freshOid (n : Nat) : ObjectId :=
  let digits := Nat.toDigits 16 n
  ⟨String.mk (List.replicate (24 - digits.length) '0' ++ digits)⟩

/-- A user document: name, unique username, plaintext password, role
string (the code uses the strings "admin" and "user"). -/
structure User where
  name : String
  username : String
  password : String
  role : String
deriving DecidableEq, Repr

/-- A product document, as built by `insert_product`. -/
structure Product where
  name : String
  sku : String
  price : ℚ
  stock : ℤ
  description : String
deriving DecidableEq, Repr

/-- A customer document, as built by `insert_customer`. -/
structure Customer where
  name : String
  email : String
  phone : String
  notes : String
deriving DecidableEq, Repr

/-- A sale document, as built by `insert_sale`: referential ids plus
denormalized name snapshots, quantity, unit price, derived total and
the sale date (a timestamp modelled as `Nat`). -/
structure Sale where
  product_id : ObjectId
  product_name : String
  customer_id : ObjectId
  customer_name : String
  quantity : ℤ
  unit_price : ℚ
  total : ℚ
  date : Nat
deriving DecidableEq, Repr

/-- The document store: the four collections (each an association list
from generated id to document, in insertion order) plus the counter
feeding `freshOid`. -/
structure Store where
  users : List (ObjectId × User)
  products : List (ObjectId × Product)
  customers : List (ObjectId × Customer)
  sales : List (ObjectId × Sale)
  nextOid : Nat
deriving DecidableEq, Repr

/-- Mongo `find_one({"_id": oid})`: the first document in the collection
with the given id, if any. -/
def findOne {α : Type} (coll : List (ObjectId × α)) (oid : ObjectId) : Option α :=
  match coll with
  | [] => none
  | (i, x) :: rest => if i = oid then some x else findOne rest oid

/-- Mongo `update_one({"_id": oid}, ...)`: applies `f` to the first
document with the given id; a silent no-op when no document matches. -/
def updateOne {α : Type} (coll : List (ObjectId × α)) (oid : ObjectId) (f : α → α) :
    List (ObjectId × α) :=
  match coll with
  | [] => []
  | (i, x) :: rest => if i = oid then (i, f x) :: rest else (i, x) :: updateOne rest oid f

/-- Mongo `delete_one({"_id": oid})`: removes the first document with the
given id; a silent no-op when no document matches. -/
def deleteOne {α : Type} (coll : List (ObjectId × α)) (oid : ObjectId) :
    List (ObjectId × α) :=
  match coll with
  | [] => []
  | (i, x) :: rest => if i = oid then rest else (i, x) :: deleteOne rest oid

/-- A store access issued by an operation, in order: a collection read
(`find_one`) or a collection write (`insert_one`, `update_one`,
`delete_one`). -/
inductive Access where
  | read
  | write
deriving DecidableEq, Repr

/-- Mongo `find_one({"username": username})` on the users collection:
first user document with the given username. -/
def findUserByUsername (users : List (ObjectId × User)) (username : String) : Option User :=
  match users with
  | [] => none
  | (_, u) :: rest => if u.username = username then some u else findUserByUsername rest username

/-- Source `fetch_user_by_username`. -/
def fetch_user_by_username (st : Store) (username : String) : Option User :=
  findUserByUsername st.users username

/-- Source `verify_credentials`: user lookup by username, `none` when the
user is absent, then plaintext password comparison. -/
def verify_credentials (st : Store) (username password : String) : Option User :=
  match fetch_user_by_username st username with
  | none => none
  | some user => if user.password = password then some user else none

/-- Source `create_user`: raises on a duplicate username, otherwise
inserts the user document and returns the generated id. -/
def create_user (st : Store) (name username password role : String) :
    Except AppError (Store × ObjectId) :=
  match findUserByUsername st.users username with
  | some _ => Except.error AppError.duplicateUsername
  | none =>
    let oid := freshOid st.nextOid
    Except.ok ({ st with
      users := st.users ++ [(oid, { name := name, username := username,
                                    password := password, role := role })],
      nextOid := st.nextOid + 1 }, oid)

/-- Outcome of the sidebar login block. -/
inductive LoginResult where
  | invalidCredentials
  | roleMismatch
  | success (user : User)
deriving DecidableEq, Repr

/-- Python `str.strip()`: removes leading and trailing whitespace. -/
def pyStrip (s : String) : String :=
  String.mk (((s.data.dropWhile Char.isWhitespace).reverse.dropWhile Char.isWhitespace).reverse)

/-- The sidebar login block (lines 194-204 of the source): strips the
username, verifies credentials, then compares the stored role with the
role the caller claims; a mismatch is reported distinctly from bad
credentials. -/
def loginAs (st : Store) (username password role_choice : String) : LoginResult :=
  match verify_credentials st (pyStrip username) password with
  | none => LoginResult.invalidCredentials
  | some user =>
    if user.role = role_choice then LoginResult.success user else LoginResult.roleMismatch

/-- A partial update dictionary for a product, as passed to
`update_product`: present keys are set by the Mongo update, absent keys
are left untouched. -/
structure ProductPatch where
  name : Option String := none
  sku : Option String := none
  price : Option ℚ := none
  stock : Option ℤ := none
  description : Option String := none
deriving DecidableEq, Repr

/-- Effect of Mongo update_one with a product patch: each key present in
the patch replaces the stored field, every other field is untouched. -/
def applyProductPatch (p : Product) (u : ProductPatch) : Product :=
  { name := u.name.getD p.name
    sku := u.sku.getD p.sku
    price := u.price.getD p.price
    stock := u.stock.getD p.stock
    description := u.description.getD p.description }

/-- A partial update dictionary for a customer, as passed to
`update_customer`. -/
structure CustomerPatch where
  name : Option String := none
  email : Option String := none
  phone : Option String := none
  notes : Option String := none
deriving DecidableEq, Repr

/-- Effect of Mongo update_one with a customer patch. -/
def applyCustomerPatch (c : Customer) (u : CustomerPatch) : Customer :=
  { name := u.name.getD c.name
    email := u.email.getD c.email
    phone := u.phone.getD c.phone
    notes := u.notes.getD c.notes }

/-- Source `update_product`, traced: `ObjectId(prod_id)` is evaluated
while building the filter, so a malformed id raises before the
`update_one` call reaches the store; otherwise a single write is issued
(a silent no-op if the id matches no product). -/
def update_productTr (st : Store) (prod_id : String) (updates : ProductPatch) :
    Except AppError Store × List Access :=
  match ObjectId.ofString prod_id with
  | Except.error e => (Except.error e, [])
  | Except.ok oid =>
    (Except.ok { st with
      products := updateOne st.products oid (fun p => applyProductPatch p updates) },
     [Access.write])

/-- Source `update_product` (resulting store only). -/
def update_product (st : Store) (prod_id : String) (updates : ProductPatch) :
    Except AppError Store :=
  (update_productTr st prod_id updates).1

/-- Source `delete_product`, traced. -/
def delete_productTr (st : Store) (prod_id : String) :
    Except AppError Store × List Access :=
  match ObjectId.ofString prod_id with
  | Except.error e => (Except.error e, [])
  | Except.ok oid =>
    (Except.ok { st with products := deleteOne st.products oid }, [Access.write])

/-- Source `delete_product` (resulting store only). -/
def delete_product (st : Store) (prod_id : String) : Except AppError Store :=
  (delete_productTr st prod_id).1

/-- Source `update_customer`, traced. -/
def update_customerTr (st : Store) (cust_id : String) (updates : CustomerPatch) :
    Except AppError Store × List Access :=
  match ObjectId.ofString cust_id with
  | Except.error e => (Except.error e, [])
  | Except.ok oid =>
    (Except.ok { st with
      customers := updateOne st.customers oid (fun c => applyCustomerPatch c updates) },
     [Access.write])

/-- Source `update_customer` (resulting store only). -/
def update_customer (st : Store) (cust_id : String) (updates : CustomerPatch) :
    Except AppError Store :=
  (update_customerTr st cust_id updates).1

/-- Source `delete_customer`, traced. -/
def delete_customerTr (st : Store) (cust_id : String) :
    Except AppError Store × List Access :=
  match ObjectId.ofString cust_id with
  | Except.error e => (Except.error e, [])
  | Except.ok oid =>
    (Except.ok { st with customers := deleteOne st.customers oid }, [Access.write])

/-- Source `delete_customer` (resulting store only). -/
def delete_customer (st : Store) (cust_id : String) : Except AppError Store :=
  (delete_customerTr st cust_id).1

/-- A Python value reaching the numeric coercions of `insert_sale`:
an int, a float (modelled as an exact rational) or a string. -/
inductive PyVal where
  | int (n : ℤ)
  | float (q : ℚ)
  | str (s : String)
deriving DecidableEq, Repr

/-- Truncation of a rational toward zero, as `int(...)` does on a
Python float. -/
def ratTrunc (q : ℚ) : ℤ := q.num / (q.den : ℤ)

/-- Value of a list of decimal digit characters. -/
def digitsToNat (cs : List Char) : Nat :=
  cs.foldl (fun acc c => acc * 10 + (c.toNat - 48)) 0

/-- Parse a non-empty all-digit character list as a natural number. -/
def parseNatChars (cs : List Char) : Option Nat :=
  if cs.isEmpty || !(cs.all Char.isDigit) then none else some (digitsToNat cs)

/-- Parse an optionally signed digit string, as Python `int(s)` accepts
after stripping. -/
def parseIntChars (cs : List Char) : Option ℤ :=
  match cs with
  | [] => none
  | c :: rest =>
    if c = '-' then (parseNatChars rest).map (fun n => -(n : ℤ))
    else if c = '+' then (parseNatChars rest).map (fun n => (n : ℤ))
    else (parseNatChars cs).map (fun n => (n : ℤ))

/-- Python `int(x)`: ints pass through, floats truncate toward zero,
strings are stripped and parsed, raising `ValueError` (modelled as
`AppError.invalidInput`) when non-numeric. -/
def pyInt : PyVal → Except AppError ℤ
  | PyVal.int n => Except.ok n
  | PyVal.float q => Except.ok (ratTrunc q)
  | PyVal.str s =>
    match parseIntChars (pyStrip s).data with
    | some n => Except.ok n
    | none => Except.error AppError.invalidInput

/-- Parse a decimal character string (optional sign, integer part,
optional dot and fractional digits) as an exact rational, backing the
model of Python `float(s)`. -/
def parseFloatChars (cs : List Char) : Option ℚ :=
  let intPart := cs.takeWhile (fun c => c ≠ '.')
  match cs.dropWhile (fun c => c ≠ '.') with
  | [] => (parseIntChars intPart).map (fun n => (n : ℚ))
  | _ :: frac =>
    if frac.isEmpty || !(frac.all Char.isDigit) then none
    else
      match parseIntChars intPart with
      | none => none
      | some n =>
        let mag : ℚ := (digitsToNat frac : ℚ) / ((10 : ℚ) ^ frac.length)
        some (if intPart.headD ' ' = '-' then (n : ℚ) - mag else (n : ℚ) + mag)

/-- Python `float(x)`: ints widen, floats pass through, strings are
stripped and parsed, raising `ValueError` (modelled as
`AppError.invalidInput`) when non-numeric. -/
def pyFloat : PyVal → Except AppError ℚ
  | PyVal.int n => Except.ok (n : ℚ)
  | PyVal.float q => Except.ok q
  | PyVal.str s =>
    match parseFloatChars (pyStrip s).data with
    | some q => Except.ok q
    | none => Except.error AppError.invalidInput

/-- The sale document built by `insert_sale`: referential ids, the
denormalized name snapshots taken from the resolved product and
customer, the coerced quantity and unit price, the derived total
`quantity * unit_price`, and the sale date. -/
def mkSaleDoc (prod : Product) (cust : Customer) (pOid cOid : ObjectId)
    (qty : ℤ) (price : ℚ) (date : Nat) : Sale :=
  { product_id := pOid
    product_name := prod.name
    customer_id := cOid
    customer_name := cust.name
    quantity := qty
    unit_price := price
    total := (qty : ℚ) * price
    date := date }

/-- Source `insert_sale`, traced.  Mirrors the evaluation order of the
Python code: `ObjectId(product_id)` then the product read, then
`ObjectId(customer_id)` and the customer read, the existence check
raising `ValueError` (modelled `invalidReference`), the `int` / `float`
coercions, the sale insert, and finally the best-effort stock decrement
whose failure (simulated by `fault = true`) is caught and swallowed.
`sale_date` defaults to the current time `now` when not supplied.
Returns the generated sale id together with the access trace. -/
def insert_saleTr (fault : Bool) (st : Store) (product_id customer_id : String)
    (quantity unit_price : PyVal) (sale_date : Option Nat) (now : Nat) :
    Except AppError (Store × ObjectId) × List Access :=
  match ObjectId.ofString product_id with
  | Except.error e => (Except.error e, [])
  | Except.ok pOid =>
    let product := findOne st.products pOid
    match ObjectId.ofString customer_id with
    | Except.error e => (Except.error e, [Access.read])
    | Except.ok cOid =>
      let customer := findOne st.customers cOid
      match product, customer with
      | some prod, some cust =>
        (match pyInt quantity with
         | Except.error e => (Except.error e, [Access.read, Access.read])
         | Except.ok qty =>
           match pyFloat unit_price with
           | Except.error e => (Except.error e, [Access.read, Access.read])
           | Except.ok price =>
             let date := sale_date.getD now
             let doc := mkSaleDoc prod cust pOid cOid qty price date
             let sid := freshOid st.nextOid
             let st1 := { st with sales := st.sales ++ [(sid, doc)],
                                  nextOid := st.nextOid + 1 }
             if fault then
               (Except.ok (st1, sid), [Access.read, Access.read, Access.write])
             else
               let st2 := { st1 with
                 products := updateOne st1.products pOid
                   (fun p => { p with stock := p.stock - qty }) }
               (Except.ok (st2, sid),
                [Access.read, Access.read, Access.write, Access.write]))
      | _, _ => (Except.error AppError.invalidReference, [Access.read, Access.read])

/-- Source `insert_sale` (result only): the new store and the generated
sale id, or the raised error. -/
def insert_sale (fault : Bool) (st : Store) (product_id customer_id : String)
    (quantity unit_price : PyVal) (sale_date : Option Nat) (now : Nat) :
    Except AppError (Store × ObjectId) :=
  (insert_saleTr fault st product_id customer_id quantity unit_price sale_date now).1

/-- Sum of the `total` fields of the sales of one product name, as the
pandas groupby-sum computes it. -/
def sumTotalsFor (sales : List Sale) (name : String) : ℚ :=
  (sales.filter (fun s => s.product_name = name)).foldl (fun acc s => acc + s.total) 0

/-- Descending-by-summed-total order on report rows. -/
def byTotalDesc (a b : String × ℚ) : Prop := b.2 ≤ a.2

instance : DecidableRel byTotalDesc := fun a b => inferInstanceAs (Decidable (b.2 ≤ a.2))

instance : IsTotal (String × ℚ) byTotalDesc :=
  ⟨fun a b => (le_total b.2 a.2).imp (fun h => h) (fun h => h)⟩

instance : IsTrans (String × ℚ) byTotalDesc :=
  ⟨fun _ _ _ hab hbc => le_trans hbc hab⟩

/-- The Reports page aggregation (line 412 of the source):
`sales.groupby('product_name')['total'].sum()` followed by
`sort_values(by='total', ascending=False)` — one row per distinct
product name carrying the summed totals, ordered descending by the
summed total. -/
def salesByProduct (sales : List Sale) : List (String × ℚ) :=
  let keys := (sales.map Sale.product_name).dedup
  List.insertionSort byTotalDesc (keys.map (fun n => (n, sumTotalsFor sales n)))

/-- Concrete well-formed product id string used in the witnesses. -/
def pid0 : String := "aaaaaaaaaaaaaaaaaaaaaaaa"

/-- Concrete well-formed customer id string used in the witnesses. -/
def cid0 : String := "bbbbbbbbbbbbbbbbbbbbbbbb"

/-- Concrete well-formed id string absent from every demo collection. -/
def absentId : String := "dddddddddddddddddddddddd"

/-- The product id of the demo store. -/
def pOid0 : ObjectId := ⟨pid0⟩

/-- The customer id of the demo store. -/
def cOid0 : ObjectId := ⟨cid0⟩

/-- The user id of the demo store. -/
def uOid0 : ObjectId := ⟨"cccccccccccccccccccccccc"⟩

/-- The admin user of the sample data. -/
def adminUser : User :=
  { name := "Admin User", username := "admin", password := "adminpass", role := "admin" }

/-- A demo product, from the sample data. -/
def demoProduct : Product :=
  { name := "T-Shirt", sku := "TSH-001", price := 299, stock := 100,
    description := "Cotton T-Shirt" }

/-- A demo customer, from the sample data. -/
def demoCustomer : Customer :=
  { name := "Amit Pandey", email := "amit@example.com", phone := "9876543210", notes := "VIP" }

/-- A small concrete store used by the witnesses: one admin user, one
product, one customer, no sales. -/
def demoStore : Store :=
  { users := [(uOid0, adminUser)]
    products := [(pOid0, demoProduct)]
    customers := [(cOid0, demoCustomer)]
    sales := []
    nextOid := 0 }

/-- A sale row carrying only the fields the reports aggregation reads:
a product name and a total. -/
def mkRow (pname : String) (t : ℚ) : Sale :=
  { product_id := pOid0, product_name := pname, customer_id := cOid0,
    customer_name := "X", quantity := 1, unit_price := t, total := t, date := 0 }

/-- The sales list of the worked reporting example of the spec. -/
def c7sales : List Sale := [mkRow ("A") 100, mkRow ("B") 50, mkRow ("A") 25]

/-- A recorded demo sale referencing the demo product and customer. -/
def demoSale : Sale := mkSaleDoc demoProduct demoCustomer pOid0 cOid0 3 10 5

/-- The id of the recorded demo sale. -/
def sOid0 : ObjectId := ⟨"eeeeeeeeeeeeeeeeeeeeeeee"⟩

/-- The demo store extended with one sale referencing its product and
customer. -/
def demoStore2 : Store := { demoStore with sales := [(sOid0, demoSale)] }

/-- A lookup after an in-place update at the same id returns the updated
document (and `none` stays `none`). -/
theorem findOne_updateOne_self {α : Type} (coll : List (ObjectId × α)) (oid : ObjectId)
    (f : α → α) : findOne (updateOne coll oid f) oid = (findOne coll oid).map f := by
  induction coll with
  | nil => rfl
  | cons hd tl ih =>
    obtain ⟨i, x⟩ := hd
    by_cases h : i = oid
    · simp [findOne, updateOne, h]
    · simp [findOne, updateOne, h, ih]

/-- A lookup fails exactly when the id is not among the collection keys. -/
theorem findOne_eq_none_iff {α : Type} (coll : List (ObjectId × α)) (oid : ObjectId) :
    findOne coll oid = none ↔ oid ∉ coll.map Prod.fst := by
  induction coll with
  | nil => simp [findOne]
  | cons hd tl ih =>
    obtain ⟨i, x⟩ := hd
    by_cases h : i = oid
    · simp [findOne, h]
    · simp [findOne, h, ih, Ne.symm h]

/-- Deleting an absent id leaves the collection unchanged. -/
theorem deleteOne_of_findOne_none {α : Type} (coll : List (ObjectId × α)) (oid : ObjectId)
    (h : findOne coll oid = none) : deleteOne coll oid = coll := by
  induction coll with
  | nil => rfl
  | cons hd tl ih =>
    obtain ⟨i, x⟩ := hd
    by_cases hio : i = oid
    · simp [findOne, hio] at h
    · simp only [findOne, hio, if_false, if_neg hio, deleteOne] at h ⊢
      rw [ih h]

/-- When the collection keys are distinct (as Mongo guarantees for
generated ids), deleting an id removes every document with that id. -/
theorem findOne_deleteOne_self {α : Type} (coll : List (ObjectId × α)) (oid : ObjectId)
    (h : (coll.map Prod.fst).Nodup) : findOne (deleteOne coll oid) oid = none := by
  induction coll with
  | nil => rfl
  | cons hd tl ih =>
    obtain ⟨i, x⟩ := hd
    simp only [List.map_cons, List.nodup_cons] at h
    by_cases hio : i = oid
    · simp only [deleteOne, if_pos hio]
      rw [findOne_eq_none_iff]
      subst hio
      exact h.1
    · simp only [deleteOne, if_neg hio, findOne, ih h.2, if_neg hio]

/-- The only error the `int(...)` coercion raises is the invalid-input
error. -/
theorem pyInt_error (q : PyVal) (e : AppError) (h : pyInt q = Except.error e) :
    e = AppError.invalidInput := by
  cases q with
  | int n => simp [pyInt] at h
  | float r => simp [pyInt] at h
  | str s =>
    simp only [pyInt] at h
    revert h
    cases parseIntChars (pyStrip s).data <;> intro h <;> simp_all

/-- Full characterisation of a successful `insert_sale`: both ids parse,
both references resolve, both numeric coercions succeed; the sale
document is appended with a fresh id, the stock decrement is applied
only when the best-effort update does not fault, and the trace records
the two reads, the sale write, and (fault-free only) the stock write. -/
theorem insert_saleTr_ok (fault : Bool) (st : Store) (pid cid : String)
    (pOid cOid : ObjectId) (prod : Product) (cust : Customer)
    (q up : PyVal) (qty : ℤ) (price : ℚ) (d : Option Nat) (now : Nat)
    (hpid : ObjectId.ofString pid = Except.ok pOid)
    (hcid : ObjectId.ofString cid = Except.ok cOid)
    (hp : findOne st.products pOid = some prod)
    (hc : findOne st.customers cOid = some cust)
    (hq : pyInt q = Except.ok qty)
    (hup : pyFloat up = Except.ok price) :
    insert_saleTr fault st pid cid q up d now =
      (Except.ok ({ st with
          products := if fault then st.products else
            updateOne st.products pOid (fun p => { p with stock := p.stock - qty }),
          sales := st.sales ++ [(freshOid st.nextOid,
            mkSaleDoc prod cust pOid cOid qty price (d.getD now))],
          nextOid := st.nextOid + 1 }, freshOid st.nextOid),
       if fault then [Access.read, Access.read, Access.write]
       else [Access.read, Access.read, Access.write, Access.write]) := by
  cases fault <;>
    simp [insert_saleTr, hpid, hcid, hp, hc, hq, hup]

/-- When both ids parse but either reference fails to resolve,
`insert_sale` raises the invalid-reference error after the two reads and
before any write. -/
theorem insert_saleTr_invalidRef (fault : Bool) (st : Store) (pid cid : String)
    (pOid cOid : ObjectId) (q up : PyVal) (d : Option Nat) (now : Nat)
    (hpid : ObjectId.ofString pid = Except.ok pOid)
    (hcid : ObjectId.ofString cid = Except.ok cOid)
    (h : findOne st.products pOid = none ∨ findOne st.customers cOid = none) :
    insert_saleTr fault st pid cid q up d now =
      (Except.error AppError.invalidReference, [Access.read, Access.read]) := by
  rcases h with h | h
  · cases hc : findOne st.customers cOid <;>
      simp [insert_saleTr, hpid, hcid, h, hc]
  · cases hp : findOne st.products pOid <;>
      simp [insert_saleTr, hpid, hcid, h, hp]

/-- When both references resolve but a numeric coercion raises,
`insert_sale` propagates the invalid-input error after the two reads and
before any write. -/
theorem insert_saleTr_invalidInput (fault : Bool) (st : Store) (pid cid : String)
    (pOid cOid : ObjectId) (prod : Product) (cust : Customer)
    (q up : PyVal) (d : Option Nat) (now : Nat)
    (hpid : ObjectId.ofString pid = Except.ok pOid)
    (hcid : ObjectId.ofString cid = Except.ok cOid)
    (hp : findOne st.products pOid = some prod)
    (hc : findOne st.customers cOid = some cust)
    (h : pyInt q = Except.error AppError.invalidInput ∨
         pyFloat up = Except.error AppError.invalidInput) :
    insert_saleTr fault st pid cid q up d now =
      (Except.error AppError.invalidInput, [Access.read, Access.read]) := by
  rcases h with h | h
  · simp [insert_saleTr, hpid, hcid, hp, hc, h]
  · cases hq : pyInt q with
    | error e =>
      have he := pyInt_error q e hq
      subst he
      simp [insert_saleTr, hpid, hcid, hp, hc, hq]
    | ok n => simp [insert_saleTr, hpid, hcid, hp, hc, hq, h]

/-- C1: for every sale recorded through `insert_sale` with a valid
product and customer, the persisted sale document carries
`total = quantity * unit_price` computed from the caller-supplied unit
price, and the stored product (`prod` here, with an arbitrary stored
`price` field) contributes only its name snapshot — the total is not
recomputed from `prod.price`. -/
theorem C1_total_is_caller_qty_times_price (fault : Bool) (st : Store) (pid cid : String)
    (pOid cOid : ObjectId) (prod : Product) (cust : Customer) (qty : ℤ) (price : ℚ)
    (d : Option Nat) (now : Nat)
    (hpid : ObjectId.ofString pid = Except.ok pOid)
    (hcid : ObjectId.ofString cid = Except.ok cOid)
    (hp : findOne st.products pOid = some prod)
    (hc : findOne st.customers cOid = some cust) :
    insert_sale fault st pid cid (PyVal.int qty) (PyVal.float price) d now =
      Except.ok ({ st with
          products := if fault then st.products else
            updateOne st.products pOid (fun p => { p with stock := p.stock - qty }),
          sales := st.sales ++ [(freshOid st.nextOid,
            mkSaleDoc prod cust pOid cOid qty price (d.getD now))],
          nextOid := st.nextOid + 1 }, freshOid st.nextOid)
    ∧ (mkSaleDoc prod cust pOid cOid qty price (d.getD now)).total = (qty : ℚ) * price
    ∧ (mkSaleDoc prod cust pOid cOid qty price (d.getD now)).unit_price = price := by
  refine ⟨?_, rfl, rfl⟩
  unfold insert_sale
  rw [insert_saleTr_ok fault st pid cid pOid cOid prod cust (PyVal.int qty)
        (PyVal.float price) qty price d now hpid hcid hp hc rfl rfl]

/-- Witness for C1 at the demo store: the caller supplies unit price 10
while the stored product price is 299, and the persisted total is
3 * 10 = 30. -/
theorem C1_witness :
    insert_sale false demoStore pid0 cid0 (PyVal.int 3) (PyVal.float 10) none 5 =
      Except.ok ({ demoStore with
          products := updateOne demoStore.products pOid0
            (fun p => { p with stock := p.stock - 3 }),
          sales := [(freshOid 0, mkSaleDoc demoProduct demoCustomer pOid0 cOid0 3 10 5)],
          nextOid := 1 }, freshOid 0)
    ∧ (mkSaleDoc demoProduct demoCustomer pOid0 cOid0 3 10 5).total = 30
    ∧ (mkSaleDoc demoProduct demoCustomer pOid0 cOid0 3 10 5).unit_price = 10 := by
  have h := C1_total_is_caller_qty_times_price false demoStore pid0 cid0 pOid0 cOid0
    demoProduct demoCustomer 3 10 none 5 rfl rfl rfl rfl
  exact ⟨h.1, h.2.1.trans (by norm_num), h.2.2⟩

/-- C2: when either the product id or the customer id is a well-formed
id that does not resolve, `insert_sale` raises the invalid-reference
error; the access trace contains only the two reads, so no sale document
is written and no stock is changed before the error. -/
theorem C2_invalid_reference_no_partial_state (fault : Bool) (st : Store) (pid cid : String)
    (pOid cOid : ObjectId) (q up : PyVal) (d : Option Nat) (now : Nat)
    (hpid : ObjectId.ofString pid = Except.ok pOid)
    (hcid : ObjectId.ofString cid = Except.ok cOid)
    (h : findOne st.products pOid = none ∨ findOne st.customers cOid = none) :
    insert_sale fault st pid cid q up d now = Except.error AppError.invalidReference
    ∧ (insert_saleTr fault st pid cid q up d now).2 = [Access.read, Access.read] := by
  have h2 := insert_saleTr_invalidRef fault st pid cid pOid cOid q up d now hpid hcid h
  exact ⟨by unfold insert_sale; rw [h2], by rw [h2]⟩

/-- Witness for C2: recording a sale against a well-formed customer id
absent from the demo store fails with the invalid-reference error and
issues no write. -/
theorem C2_witness :
    insert_sale false demoStore pid0 absentId (PyVal.int 3) (PyVal.float 10) none 5 =
      Except.error AppError.invalidReference
    ∧ (insert_saleTr false demoStore pid0 absentId (PyVal.int 3) (PyVal.float 10) none 5).2 =
        [Access.read, Access.read] :=
  C2_invalid_reference_no_partial_state false demoStore pid0 absentId pOid0 ⟨absentId⟩
    (PyVal.int 3) (PyVal.float 10) none 5 rfl rfl (Or.inr rfl)

/-- C3: on a successful `insert_sale`, when the best-effort stock update
succeeds the referenced product's stock decreases by exactly the
quantity; when that update faults, the failure is swallowed — the same
fresh sale id is still returned, the sale document is still appended,
and the products collection (hence the stock) is left exactly as it
was: the sale is never rolled back. -/
theorem C3_sale_persists_stock_best_effort (st : Store) (pid cid : String)
    (pOid cOid : ObjectId) (prod : Product) (cust : Customer) (qty : ℤ) (price : ℚ)
    (d : Option Nat) (now : Nat)
    (hpid : ObjectId.ofString pid = Except.ok pOid)
    (hcid : ObjectId.ofString cid = Except.ok cOid)
    (hp : findOne st.products pOid = some prod)
    (hc : findOne st.customers cOid = some cust) :
    insert_sale false st pid cid (PyVal.int qty) (PyVal.float price) d now =
      Except.ok ({ st with
          products := updateOne st.products pOid (fun p => { p with stock := p.stock - qty }),
          sales := st.sales ++ [(freshOid st.nextOid,
            mkSaleDoc prod cust pOid cOid qty price (d.getD now))],
          nextOid := st.nextOid + 1 }, freshOid st.nextOid)
    ∧ findOne (updateOne st.products pOid (fun p => { p with stock := p.stock - qty })) pOid =
        some { prod with stock := prod.stock - qty }
    ∧ insert_sale true st pid cid (PyVal.int qty) (PyVal.float price) d now =
        Except.ok ({ st with
            sales := st.sales ++ [(freshOid st.nextOid,
              mkSaleDoc prod cust pOid cOid qty price (d.getD now))],
            nextOid := st.nextOid + 1 }, freshOid st.nextOid) := by
  refine ⟨?_, ?_, ?_⟩
  · unfold insert_sale
    rw [insert_saleTr_ok false st pid cid pOid cOid prod cust (PyVal.int qty)
          (PyVal.float price) qty price d now hpid hcid hp hc rfl rfl]
    rfl
  · rw [findOne_updateOne_self, hp]
    rfl
  · unfold insert_sale
    rw [insert_saleTr_ok true st pid cid pOid cOid prod cust (PyVal.int qty)
          (PyVal.float price) qty price d now hpid hcid hp hc rfl rfl]
    rfl

/-- Witness for C3 at the demo store: fault-free recording of 3 units
leaves the product at stock 97; with the stock update faulting, the sale
is still recorded under the same id and the stock stays 100. -/
theorem C3_witness :
    insert_sale false demoStore pid0 cid0 (PyVal.int 3) (PyVal.float 10) none 5 =
      Except.ok ({ demoStore with
          products := updateOne demoStore.products pOid0
            (fun p => { p with stock := p.stock - 3 }),
          sales := [(freshOid 0, mkSaleDoc demoProduct demoCustomer pOid0 cOid0 3 10 5)],
          nextOid := 1 }, freshOid 0)
    ∧ findOne (updateOne demoStore.products pOid0
        (fun p => { p with stock := p.stock - 3 })) pOid0 =
        some { demoProduct with stock := 97 }
    ∧ insert_sale true demoStore pid0 cid0 (PyVal.int 3) (PyVal.float 10) none 5 =
        Except.ok ({ demoStore with
            sales := [(freshOid 0, mkSaleDoc demoProduct demoCustomer pOid0 cOid0 3 10 5)],
            nextOid := 1 }, freshOid 0) := by
  have h := C3_sale_persists_stock_best_effort demoStore pid0 cid0 pOid0 cOid0
    demoProduct demoCustomer 3 10 none 5 rfl rfl rfl rfl
  exact ⟨h.1, h.2.1, h.2.2⟩

/-- Counterexample to C4: `insert_sale` performs no positivity check on
the quantity and no non-negativity check on the unit price — with valid
references, quantity -3 and unit price -5 the call succeeds and a sale
document with quantity -3, unit price -5 and total 15 is persisted
(and the stock is incremented by 3), although the claim asserts that no
sale is created for quantity at most 0 or negative unit price. -/
theorem C4_counterexample :
    insert_sale false demoStore pid0 cid0 (PyVal.int (-3)) (PyVal.float (-5)) none 5 =
      Except.ok ({ demoStore with
          products := [(pOid0, { demoProduct with stock := 103 })],
          sales := [(freshOid 0, mkSaleDoc demoProduct demoCustomer pOid0 cOid0 (-3) (-5) 5)],
          nextOid := 1 }, freshOid 0)
    ∧ (mkSaleDoc demoProduct demoCustomer pOid0 cOid0 (-3) (-5) 5).quantity = -3
    ∧ (mkSaleDoc demoProduct demoCustomer pOid0 cOid0 (-3) (-5) 5).total = 15 := by
  refine ⟨?_, rfl, by norm_num [mkSaleDoc]⟩
  have h := C1_total_is_caller_qty_times_price false demoStore pid0 cid0 pOid0 cOid0
    demoProduct demoCustomer (-3) (-5) none 5 rfl rfl rfl rfl
  exact h.1

/-- C4 (amended): `insert_sale` coerces its inputs — a non-numeric
quantity or unit-price string raises the invalid-input error after the
two reads and before any write — but it performs no positivity check on
the quantity and no non-negativity check on the unit price: with valid
references, every integer quantity and every rational unit price
(including zero and negative values) is accepted and a sale document is
persisted. -/
theorem C4_coercion_without_positivity_check (fault : Bool) (st : Store) (pid cid : String)
    (pOid cOid : ObjectId) (prod : Product) (cust : Customer) (qty : ℤ) (price : ℚ)
    (s t : String) (d : Option Nat) (now : Nat)
    (hpid : ObjectId.ofString pid = Except.ok pOid)
    (hcid : ObjectId.ofString cid = Except.ok cOid)
    (hp : findOne st.products pOid = some prod)
    (hc : findOne st.customers cOid = some cust)
    (hs : parseIntChars (pyStrip s).data = none)
    (ht : parseFloatChars (pyStrip t).data = none) :
    insert_sale fault st pid cid (PyVal.str s) (PyVal.float price) d now =
      Except.error AppError.invalidInput
    ∧ (insert_saleTr fault st pid cid (PyVal.str s) (PyVal.float price) d now).2 =
        [Access.read, Access.read]
    ∧ insert_sale fault st pid cid (PyVal.int qty) (PyVal.str t) d now =
        Except.error AppError.invalidInput
    ∧ (insert_saleTr fault st pid cid (PyVal.int qty) (PyVal.str t) d now).2 =
        [Access.read, Access.read]
    ∧ insert_sale fault st pid cid (PyVal.int qty) (PyVal.float price) d now =
        Except.ok ({ st with
            products := if fault then st.products else
              updateOne st.products pOid (fun p => { p with stock := p.stock - qty }),
            sales := st.sales ++ [(freshOid st.nextOid,
              mkSaleDoc prod cust pOid cOid qty price (d.getD now))],
            nextOid := st.nextOid + 1 }, freshOid st.nextOid) := by
  have hq : pyInt (PyVal.str s) = Except.error AppError.invalidInput := by simp [pyInt, hs]
  have hu : pyFloat (PyVal.str t) = Except.error AppError.invalidInput := by simp [pyFloat, ht]
  have h1 := insert_saleTr_invalidInput fault st pid cid pOid cOid prod cust
    (PyVal.str s) (PyVal.float price) d now hpid hcid hp hc (Or.inl hq)
  have h2 := insert_saleTr_invalidInput fault st pid cid pOid cOid prod cust
    (PyVal.int qty) (PyVal.str t) d now hpid hcid hp hc (Or.inr hu)
  refine ⟨by unfold insert_sale; rw [h1], by rw [h1], by unfold insert_sale; rw [h2],
    by rw [h2], ?_⟩
  unfold insert_sale
  rw [insert_saleTr_ok fault st pid cid pOid cOid prod cust (PyVal.int qty)
        (PyVal.float price) qty price d now hpid hcid hp hc rfl rfl]

/-- Witness for the amended C4: quantity string "abc" (and unit-price
string "xy") raise, while quantity -3 with unit price -5 is accepted. -/
theorem C4_witness :
    insert_sale false demoStore pid0 cid0 (PyVal.str ("abc")) (PyVal.float (-5)) none 5 =
      Except.error AppError.invalidInput
    ∧ (insert_saleTr false demoStore pid0 cid0 (PyVal.str ("abc")) (PyVal.float (-5)) none 5).2 =
        [Access.read, Access.read]
    ∧ insert_sale false demoStore pid0 cid0 (PyVal.int (-3)) (PyVal.str ("xy")) none 5 =
        Except.error AppError.invalidInput
    ∧ (insert_saleTr false demoStore pid0 cid0 (PyVal.int (-3)) (PyVal.str ("xy")) none 5).2 =
        [Access.read, Access.read]
    ∧ insert_sale false demoStore pid0 cid0 (PyVal.int (-3)) (PyVal.float (-5)) none 5 =
        Except.ok ({ demoStore with
            products := updateOne demoStore.products pOid0
              (fun p => { p with stock := p.stock - (-3) }),
            sales := [(freshOid 0, mkSaleDoc demoProduct demoCustomer pOid0 cOid0 (-3) (-5) 5)],
            nextOid := 1 }, freshOid 0) := by
  have h := C4_coercion_without_positivity_check false demoStore pid0 cid0 pOid0 cOid0
    demoProduct demoCustomer (-3) (-5) ("abc") ("xy") none 5 rfl rfl rfl rfl rfl rfl
  exact ⟨h.1, h.2.1, h.2.2.1, h.2.2.2.1, h.2.2.2.2⟩

/-- C5: `create_user` with a username already present in the users
collection raises the duplicate-username error and returns no store (so
the user count is unchanged); with a fresh username it appends exactly
one user document and returns the generated id. -/
theorem C5_create_user_duplicate_check (st : Store) (name username password role : String)
    (u : User) :
    (findUserByUsername st.users username = some u →
      create_user st name username password role = Except.error AppError.duplicateUsername)
    ∧ (findUserByUsername st.users username = none →
      create_user st name username password role =
        Except.ok ({ st with
          users := st.users ++ [(freshOid st.nextOid,
            { name := name, username := username, password := password, role := role })],
          nextOid := st.nextOid + 1 }, freshOid st.nextOid)
      ∧ (st.users ++ [(freshOid st.nextOid,
            ({ name := name, username := username, password := password,
               role := role } : User))]).length = st.users.length + 1) := by
  constructor
  · intro h
    simp [create_user, h]
  · intro h
    refine ⟨by simp [create_user, h], by simp⟩

/-- Witness for C5: creating a second "admin" fails with the
duplicate-username error; creating "newbie" succeeds with one more
user. -/
theorem C5_witness :
    create_user demoStore ("X") ("admin") ("pw") ("user") =
      Except.error AppError.duplicateUsername
    ∧ create_user demoStore ("X") ("newbie") ("pw") ("user") =
        Except.ok ({ demoStore with
          users := demoStore.users ++ [(freshOid 0,
            { name := "X", username := "newbie", password := "pw", role := "user" })],
          nextOid := 1 }, freshOid 0) := by
  have h1 := C5_create_user_duplicate_check demoStore ("X") ("admin") ("pw") ("user") adminUser
  have h2 := C5_create_user_duplicate_check demoStore ("X") ("newbie") ("pw") ("user") adminUser
  exact ⟨h1.1 rfl, (h2.2 rfl).1⟩

/-- C6: `verify_credentials` returns none when the username is absent or
the password mismatches; with correct credentials, the login block
reports a role mismatch — an outcome distinct from invalid
credentials — when the claimed role differs from the stored role, and
succeeds when it matches. -/
theorem C6_role_mismatch_distinct_from_bad_credentials (st : Store)
    (username password claimed : String) (u : User) :
    (fetch_user_by_username st username = none →
      verify_credentials st username password = none)
    ∧ (fetch_user_by_username st username = some u → u.password ≠ password →
        verify_credentials st username password = none)
    ∧ (verify_credentials st (pyStrip username) password = some u → u.role ≠ claimed →
        loginAs st username password claimed = LoginResult.roleMismatch)
    ∧ (verify_credentials st (pyStrip username) password = some u → u.role = claimed →
        loginAs st username password claimed = LoginResult.success u)
    ∧ LoginResult.roleMismatch ≠ LoginResult.invalidCredentials := by
  refine ⟨?_, ?_, ?_, ?_, by simp⟩
  · intro h
    simp [verify_credentials, h]
  · intro h hne
    simp [verify_credentials, h, hne]
  · intro h hne
    simp [loginAs, h, hne]
  · intro h he
    simp [loginAs, h, he]

/-- Witness for C6 at the demo store: the stored role of "admin" is
"admin", so logging in as "user" with the correct password reports the
role mismatch, logging in as "admin" succeeds, and an unknown username
or a wrong password verifies to none. -/
theorem C6_witness :
    loginAs demoStore ("admin") ("adminpass") ("user") = LoginResult.roleMismatch
    ∧ loginAs demoStore ("admin") ("adminpass") ("admin") = LoginResult.success adminUser
    ∧ verify_credentials demoStore ("nobody") ("x") = none
    ∧ verify_credentials demoStore ("admin") ("wrong") = none := by
  have h1 := C6_role_mismatch_distinct_from_bad_credentials demoStore ("admin") ("adminpass")
    ("user") adminUser
  have h2 := C6_role_mismatch_distinct_from_bad_credentials demoStore ("admin") ("adminpass")
    ("admin") adminUser
  have h3 := C6_role_mismatch_distinct_from_bad_credentials demoStore ("nobody") ("x")
    ("user") adminUser
  have h4 := C6_role_mismatch_distinct_from_bad_credentials demoStore ("admin") ("wrong")
    ("user") adminUser
  exact ⟨h1.2.2.1 rfl (by decide), h2.2.2.2.1 rfl rfl, h3.1 rfl, h4.2.1 rfl (by decide)⟩

/-- C7: the reports aggregation returns one row per distinct product
name occurring in the sales, carrying the sum of that product's sale
totals, in descending order of summed total; on the spec's worked
example it returns exactly the rows A with 125 and B with 50. -/
theorem C7_salesByProduct_sums_and_sorts_desc (sales : List Sale) :
    ((salesByProduct sales).map Prod.fst).Nodup
    ∧ (∀ name : String,
        (name, sumTotalsFor sales name) ∈ salesByProduct sales ↔
          name ∈ sales.map Sale.product_name)
    ∧ List.Sorted byTotalDesc (salesByProduct sales)
    ∧ salesByProduct c7sales = [(("A" : String), (125 : ℚ)), (("B" : String), (50 : ℚ))] := by
  have hperm : List.Perm (salesByProduct sales)
      (((sales.map Sale.product_name).dedup).map
        (fun n => (n, sumTotalsFor sales n))) :=
    List.perm_insertionSort _ _
  refine ⟨?_, ?_, ?_, by
    norm_num [salesByProduct, c7sales, mkRow, sumTotalsFor, List.dedup, List.pwFilter,
      byTotalDesc, List.filter, List.foldl]⟩
  · have hm := hperm.map Prod.fst
    rw [List.map_map] at hm
    refine hm.nodup_iff.mpr ?_
    have hcomp : (Prod.fst ∘ fun n : String => (n, sumTotalsFor sales n)) = id :=
      funext (fun _ => rfl)
    rw [hcomp, List.map_id]
    exact List.nodup_dedup _
  · intro name
    rw [hperm.mem_iff, List.mem_map]
    constructor
    · rintro ⟨a, ha, hfa⟩
      have : a = name := congrArg Prod.fst hfa
      subst this
      exact List.mem_dedup.mp ha
    · intro h
      exact ⟨name, List.mem_dedup.mpr h, rfl⟩
  · exact List.sorted_insertionSort byTotalDesc _

/-- Updating at an absent id leaves the collection unchanged. -/
theorem updateOne_of_findOne_none {α : Type} (coll : List (ObjectId × α)) (oid : ObjectId)
    (f : α → α) (h : findOne coll oid = none) : updateOne coll oid f = coll := by
  induction coll with
  | nil => rfl
  | cons hd tl ih =>
    obtain ⟨i, x⟩ := hd
    by_cases hio : i = oid
    · simp [findOne, hio] at h
    · simp only [findOne, if_neg hio] at h
      simp only [updateOne, if_neg hio, ih h]

/-- Counterexample to C8: updating a well-formed id that resolves to no
product is not a failure — `update_product` reports success and returns
the store unchanged (Mongo update_one matches nothing and is a silent
no-op), while the claim asserts the operation fails with NotFound. -/
theorem C8_counterexample :
    update_product demoStore absentId { name := some ("Renamed") } = Except.ok demoStore
    ∧ findOne demoStore.products ⟨absentId⟩ = none :=
  ⟨rfl, rfl⟩

/-- C8 (amended): when the id is well-formed but resolves to no record,
`update_product` / `update_customer` succeed as silent no-ops (no
NotFound failure, store unchanged); when the id resolves, the fields
present in the patch are merged into the stored record by the update and
every absent field is left untouched. -/
theorem C8_update_merges_or_silently_noops (st : Store) (idStr cIdStr : String)
    (oid coid : ObjectId) (prod : Product) (cust : Customer)
    (patch : ProductPatch) (cpatch : CustomerPatch)
    (hid : ObjectId.ofString idStr = Except.ok oid)
    (hcid : ObjectId.ofString cIdStr = Except.ok coid) :
    (findOne st.products oid = none → update_product st idStr patch = Except.ok st)
    ∧ (findOne st.products oid = some prod →
        update_product st idStr patch =
          Except.ok { st with
            products := updateOne st.products oid (fun p => applyProductPatch p patch) }
        ∧ findOne (updateOne st.products oid (fun p => applyProductPatch p patch)) oid =
            some (applyProductPatch prod patch))
    ∧ (applyProductPatch prod patch).name = patch.name.getD prod.name
    ∧ (applyProductPatch prod patch).sku = patch.sku.getD prod.sku
    ∧ (applyProductPatch prod patch).price = patch.price.getD prod.price
    ∧ (applyProductPatch prod patch).stock = patch.stock.getD prod.stock
    ∧ (applyProductPatch prod patch).description = patch.description.getD prod.description
    ∧ (findOne st.customers coid = none → update_customer st cIdStr cpatch = Except.ok st)
    ∧ (findOne st.customers coid = some cust →
        update_customer st cIdStr cpatch =
          Except.ok { st with
            customers := updateOne st.customers coid (fun c => applyCustomerPatch c cpatch) }
        ∧ findOne (updateOne st.customers coid (fun c => applyCustomerPatch c cpatch)) coid =
            some (applyCustomerPatch cust cpatch))
    ∧ (applyCustomerPatch cust cpatch).name = cpatch.name.getD cust.name
    ∧ (applyCustomerPatch cust cpatch).email = cpatch.email.getD cust.email
    ∧ (applyCustomerPatch cust cpatch).phone = cpatch.phone.getD cust.phone
    ∧ (applyCustomerPatch cust cpatch).notes = cpatch.notes.getD cust.notes := by
  refine ⟨?_, ?_, rfl, rfl, rfl, rfl, rfl, ?_, ?_, rfl, rfl, rfl, rfl⟩
  · intro h
    simp [update_product, update_productTr, hid, updateOne_of_findOne_none _ _ _ h]
  · intro h
    refine ⟨by simp [update_product, update_productTr, hid], ?_⟩
    rw [findOne_updateOne_self, h]
    rfl
  · intro h
    simp [update_customer, update_customerTr, hcid, updateOne_of_findOne_none _ _ _ h]
  · intro h
    refine ⟨by simp [update_customer, update_customerTr, hcid], ?_⟩
    rw [findOne_updateOne_self, h]
    rfl

/-- Witness for the amended C8: renaming the demo product merges the new
name while the untouched price survives, and updating at an absent
well-formed id is a silent successful no-op. -/
theorem C8_witness :
    update_product demoStore pid0 { name := some ("Polo") } =
      Except.ok { demoStore with
        products := updateOne demoStore.products pOid0
          (fun p => applyProductPatch p { name := some ("Polo") }) }
    ∧ findOne (updateOne demoStore.products pOid0
        (fun p => applyProductPatch p { name := some ("Polo") })) pOid0 =
        some (applyProductPatch demoProduct { name := some ("Polo") })
    ∧ (applyProductPatch demoProduct { name := some ("Polo") }).name = "Polo"
    ∧ (applyProductPatch demoProduct { name := some ("Polo") }).price = 299
    ∧ update_product demoStore absentId { name := some ("Polo") } = Except.ok demoStore := by
  have h := C8_update_merges_or_silently_noops demoStore pid0 cid0 pOid0 cOid0
    demoProduct demoCustomer { name := some ("Polo") } {} rfl rfl
  have h2 := C8_update_merges_or_silently_noops demoStore absentId cid0 ⟨absentId⟩ cOid0
    demoProduct demoCustomer { name := some ("Polo") } {} rfl rfl
  exact ⟨(h.2.1 rfl).1, (h.2.1 rfl).2, h.2.2.1, h.2.2.2.2.1, h2.1 rfl⟩

/-- C9: repository deletes always report success for well-formed ids —
deleting an absent id is a silent no-op (so deleting twice equals
deleting once when ids are unique), and no referential-integrity check
against the sales collection is performed: deleting a product or
customer that a stored sale references succeeds, leaves the sale in
place, and the sale's reference dangles (the id no longer resolves). -/
theorem C9_delete_noop_idempotent_no_ref_check (st : Store) (idStr cIdStr : String)
    (oid coid sid : ObjectId) (sale : Sale)
    (hid : ObjectId.ofString idStr = Except.ok oid)
    (hcid : ObjectId.ofString cIdStr = Except.ok coid) :
    delete_product st idStr = Except.ok { st with products := deleteOne st.products oid }
    ∧ (findOne st.products oid = none → delete_product st idStr = Except.ok st)
    ∧ ((st.products.map Prod.fst).Nodup →
        deleteOne (deleteOne st.products oid) oid = deleteOne st.products oid
        ∧ findOne (deleteOne st.products oid) oid = none)
    ∧ ((sid, sale) ∈ st.sales → sale.product_id = oid →
        (sid, sale) ∈ ({ st with products := deleteOne st.products oid } : Store).sales)
    ∧ delete_customer st cIdStr =
        Except.ok { st with customers := deleteOne st.customers coid }
    ∧ (findOne st.customers coid = none → delete_customer st cIdStr = Except.ok st)
    ∧ ((st.customers.map Prod.fst).Nodup →
        deleteOne (deleteOne st.customers coid) coid = deleteOne st.customers coid
        ∧ findOne (deleteOne st.customers coid) coid = none) := by
  refine ⟨?_, ?_, ?_, ?_, ?_, ?_, ?_⟩
  · simp [delete_product, delete_productTr, hid]
  · intro h
    simp [delete_product, delete_productTr, hid, deleteOne_of_findOne_none _ _ h]
  · intro h
    have hnone := findOne_deleteOne_self st.products oid h
    exact ⟨deleteOne_of_findOne_none _ _ hnone, hnone⟩
  · intro hmem _
    exact hmem
  · simp [delete_customer, delete_customerTr, hcid]
  · intro h
    simp [delete_customer, delete_customerTr, hcid, deleteOne_of_findOne_none _ _ h]
  · intro h
    have hnone := findOne_deleteOne_self st.customers coid h
    exact ⟨deleteOne_of_findOne_none _ _ hnone, hnone⟩

/-- Witness for C9 on the demo store holding one sale that references
the demo product: deleting the product succeeds, the sale survives with
its now-dangling reference, the id no longer resolves, and deleting an
absent id is a successful no-op. -/
theorem C9_witness :
    delete_product demoStore2 pid0 =
      Except.ok { demoStore2 with products := deleteOne demoStore2.products pOid0 }
    ∧ delete_product demoStore2 absentId = Except.ok demoStore2
    ∧ (sOid0, demoSale) ∈
        ({ demoStore2 with products := deleteOne demoStore2.products pOid0 } : Store).sales
    ∧ findOne (deleteOne demoStore2.products pOid0) pOid0 = none
    ∧ deleteOne (deleteOne demoStore2.products pOid0) pOid0 =
        deleteOne demoStore2.products pOid0 := by
  have h := C9_delete_noop_idempotent_no_ref_check demoStore2 pid0 cid0 pOid0 cOid0
    sOid0 demoSale rfl rfl
  have h2 := C9_delete_noop_idempotent_no_ref_check demoStore2 absentId cid0 ⟨absentId⟩ cOid0
    sOid0 demoSale rfl rfl
  have hnd : (demoStore2.products.map Prod.fst).Nodup := by
    simp [demoStore2, demoStore]
  exact ⟨h.1, h2.2.1 rfl, h.2.2.2.1 (by simp [demoStore2]) rfl, (h.2.2.1 hnd).2,
    (h.2.2.1 hnd).1⟩

/-- Counterexample to C10: with a well-formed product id, `insert_sale`
evaluates `ObjectId(product_id)` and issues the product read before
`ObjectId(customer_id)` is converted, so a malformed customer id string
("zzz" is not a 24-character hex string) raises the InvalidId error only
after a read has already reached the store — not before any read, as
the claim states for every malformed id argument. -/
theorem C10_counterexample :
    insert_saleTr false demoStore pid0 ("zzz") (PyVal.int 1) (PyVal.float 10) none 5 =
      (Except.error AppError.invalidId, [Access.read])
    ∧ isValidObjectIdString ("zzz") = false
    ∧ isValidObjectIdString pid0 = true :=
  ⟨rfl, rfl, rfl⟩

/-- C10 (amended): for every id string that is not a well-formed object
id, `update_product`, `delete_product`, `update_customer`,
`delete_customer` and `insert_sale` raise the InvalidId conversion error
before any write reaches the store, and the silent-no-op / NotFound /
InvalidReference behaviours apply only to well-formed ids; the four
update/delete operations and `insert_sale` with a malformed product id
issue no store access at all, while `insert_sale` with a well-formed
product id and a malformed customer id issues exactly the product read
before the conversion error. -/
theorem C10_malformed_id_conversion_error (fault : Bool) (st : Store) (s pid : String)
    (pOid : ObjectId) (patch : ProductPatch) (cpatch : CustomerPatch)
    (q up : PyVal) (d : Option Nat) (now : Nat)
    (hbad : isValidObjectIdString s = false)
    (hpid : ObjectId.ofString pid = Except.ok pOid) :
    update_productTr st s patch = (Except.error AppError.invalidId, [])
    ∧ delete_productTr st s = (Except.error AppError.invalidId, [])
    ∧ update_customerTr st s cpatch = (Except.error AppError.invalidId, [])
    ∧ delete_customerTr st s = (Except.error AppError.invalidId, [])
    ∧ insert_saleTr fault st s pid q up d now = (Except.error AppError.invalidId, [])
    ∧ insert_saleTr fault st pid s q up d now =
        (Except.error AppError.invalidId, [Access.read]) := by
  have hofs : ObjectId.ofString s = Except.error AppError.invalidId := by
    simp [ObjectId.ofString, hbad]
  refine ⟨?_, ?_, ?_, ?_, ?_, ?_⟩
  · simp [update_productTr, hofs]
  · simp [delete_productTr, hofs]
  · simp [update_customerTr, hofs]
  · simp [delete_customerTr, hofs]
  · simp [insert_saleTr, hofs]
  · simp [insert_saleTr, hofs, hpid]

/-- Witness for the amended C10 at the malformed id string "zzz". -/
theorem C10_witness :
    update_productTr demoStore ("zzz") {} = (Except.error AppError.invalidId, [])
    ∧ delete_productTr demoStore ("zzz") = (Except.error AppError.invalidId, [])
    ∧ update_customerTr demoStore ("zzz") {} = (Except.error AppError.invalidId, [])
    ∧ delete_customerTr demoStore ("zzz") = (Except.error AppError.invalidId, [])
    ∧ insert_saleTr false demoStore ("zzz") pid0 (PyVal.int 1) (PyVal.float 10) none 5 =
        (Except.error AppError.invalidId, [])
    ∧ insert_saleTr false demoStore pid0 ("zzz") (PyVal.int 1) (PyVal.float 10) none 5 =
        (Except.error AppError.invalidId, [Access.read]) := by
  have h := C10_malformed_id_conversion_error false demoStore ("zzz") pid0 pOid0 {} {}
    (PyVal.int 1) (PyVal.float 10) none 5 rfl rfl
  exact ⟨h.1, h.2.1, h.2.2.1, h.2.2.2.1, h.2.2.2.2.1, h.2.2.2.2.2⟩
